import Mathlib

/-!
Verification of the run orchestrator of the mlflow-x-hydra template
(`main.py`).  The script wires Hydra configuration resolution to MLflow
experiment tracking: it ensures the named experiment exists, starts a run,
materialises an output directory, logs parameters, runs the epoch loop
(logging metrics and artifacts) and closes the run.

The shallow embedding below models the MLflow backend plus the filesystem as
an explicit `World` state threaded through the orchestrator.  Python name
lookup and true division are modelled as fallible operations, because the
source references an unbound variable `i` in the artifact-file name, and
divides by `n_epochs` in the metric computation.  One invocation of `main`
becomes the function `runMain`, which also records the sequence of MLflow
logging calls as a trace of events.
-/

namespace MlflowHydra

/-- Python exceptions that the orchestrator can raise. -/
inductive PyError where
  | nameError (name : String)
  | zeroDivisionError
  | mlflowException (msg : String)
deriving Repr, DecidableEq

/-- Run lifecycle states of the spec's state machine: created → active → closed.
`mlflow.start_run` returns an active run; `mlflow.end_run` closes it. -/
inductive RunStatus where
  | active
  | closed
deriving Repr, DecidableEq

/-- An MLflow experiment record: a name and an artifact storage location. -/
structure Experiment where
  name : String
  artifact_location : String
deriving Repr, DecidableEq

/-- One logged metric point: key, value and step index. -/
structure Metric where
  key : String
  value : Rat
  step : Nat
deriving Repr, DecidableEq

/-- An MLflow run record: backend-assigned id, optional human name, status,
write-once parameters, append-only metric time series, registered artifacts. -/
structure Run where
  run_id : String
  run_name : String
  status : RunStatus
  params : List (String × String)
  metrics : List Metric
  artifacts : List String
deriving Repr, DecidableEq

/-- The observable state: the MLflow backend (experiments and runs) plus the
filesystem (directories and files), as the orchestrator mutates them. -/
structure World where
  experiments : List Experiment
  runs : List Run
  dirs : List String
  files : List String
deriving Repr, DecidableEq

/-- The empty backend and filesystem, before any invocation. -/
def World.empty : World := ⟨[], [], [], []⟩

/-- MLflow logging calls emitted by one invocation, in order. -/
inductive Event where
  | logParams (ps : List (String × String))
  | logParam (key val : String)
  | logMetrics (ms : List (String × Rat)) (step : Nat)
  | logMetric (key : String) (v : Rat) (step : Nat)
  | logArtifact (path : String)
  | logArtifacts (dir : String)
  | logFigure (file : String)
deriving Repr, DecidableEq

/-- Whether an event is one emitted from inside the training loop body
(metric, artifact or figure logging), as opposed to parameter logging. -/
def Event.isTraining : Event → Bool
  | .logMetrics _ _ => true
  | .logMetric _ _ _ => true
  | .logArtifact _ => true
  | .logArtifacts _ => true
  | .logFigure _ => true
  | _ => false

/-- The Hydra configuration namespace: `conf/train.yaml` keys plus CLI
overrides.  `lr` and `batch_size` are unpacked by `main` but never used. -/
structure Cfg where
  expname : String
  runname : String
  n_epochs : Nat
  lr : String
  batch_size : Nat
deriving Repr, DecidableEq

/-- The configuration rendered as the parameter mapping that
`mlflow.log_params(cfg)` logs in one call. -/
def paramsOf (cfg : Cfg) : List (String × String) :=
  [("expname", cfg.expname), ("runname", cfg.runname),
   ("n_epochs", toString cfg.n_epochs), ("lr", cfg.lr),
   ("batch_size", toString cfg.batch_size)]

/-- `TRACKING_URI = f"file://{wd}/mlruns"` (main.py line 34): the file-scheme
tracking URI, computed once at module load from the resolved script directory. -/
def TRACKING_URI (wd : String) : String := "file://" ++ wd ++ "/mlruns"

/-- `ARTIFACT_URI = TRACKING_URI` (main.py line 35). -/
def ARTIFACT_URI (wd : String) : String := TRACKING_URI wd

/-- Python name lookup: evaluating a name bound to a value yields it;
evaluating an unbound name raises `NameError`. -/
def lookupName {α : Type} (x : Option α) (n : String) : Except PyError α :=
  match x with
  | some v => .ok v
  | none => .error (.nameError n)

/-- The local variable `i` of `main`: it is referenced at main.py lines 149,
158 and 164 but never assigned anywhere in the function, so it is unbound. -/
def iVar : Option Nat := none

/-- Python true division on the loop's operands (`epoch / n_epochs`,
main.py line 136): raises `ZeroDivisionError` on a zero denominator. -/
def pyDiv (a b : Nat) : Except PyError Rat :=
  if b = 0 then .error .zeroDivisionError else .ok ((a : Rat) / (b : Rat))

/-- Python `f"{i:02d}"`: decimal rendering zero-padded to width two. -/
def fmt02 (n : Nat) : String :=
  if n < 10 then "0" ++ toString n else toString n

/-- `mlflow.get_experiment_by_name`: query the backend by experiment name. -/
def get_experiment_by_name (w : World) (name : String) : Option Experiment :=
  w.experiments.find? (fun e => e.name == name)

/-- `mlflow.create_experiment`: append a new experiment record. -/
def create_experiment (w : World) (name artifact_location : String) : World :=
  { w with experiments := w.experiments ++ [⟨name, artifact_location⟩] }

/-- `mlflow.start_run(run_name=...)`: append a new active run with the
backend-assigned (randomly generated UUID) run id. -/
def start_run (w : World) (rid run_name : String) : World :=
  { w with runs := w.runs ++ [⟨rid, run_name, .active, [], [], []⟩] }

/-- Apply `f` to the run(s) with the given run id. -/
def updateRun (w : World) (rid : String) (f : Run → Run) : World :=
  { w with runs := w.runs.map (fun r => if r.run_id == rid then f r else r) }

/-- The parameters currently logged on a run (empty when the run is absent). -/
def runParams (w : World) (rid : String) : List (String × String) :=
  ((w.runs.find? (fun r => r.run_id == rid)).map Run.params).getD []

/-- The metric time series currently logged on a run. -/
def runMetrics (w : World) (rid : String) : List Metric :=
  ((w.runs.find? (fun r => r.run_id == rid)).map Run.metrics).getD []

/-- The status of a run in the backend, when the run exists. -/
def runStatus (w : World) (rid : String) : Option RunStatus :=
  (w.runs.find? (fun r => r.run_id == rid)).map Run.status

/-- `mlflow.log_param`: parameters are write-once per key; re-logging an
existing key is rejected by the backend. -/
def log_param (w : World) (rid key val : String) : Except PyError World :=
  if (runParams w rid).any (fun p => p.1 == key) then
    .error (.mlflowException ("param already logged: " ++ key))
  else
    .ok (updateRun w rid (fun r => { r with params := r.params ++ [(key, val)] }))

/-- `mlflow.log_params`: log a whole mapping in one call; rejected if any key
was already logged on the run. -/
def log_params (w : World) (rid : String) (ps : List (String × String)) :
    Except PyError World :=
  if ps.any (fun p => (runParams w rid).any (fun q => q.1 == p.1)) then
    .error (.mlflowException "param already logged")
  else
    .ok (updateRun w rid (fun r => { r with params := r.params ++ ps }))

/-- `mlflow.log_metrics(ms, step=s)`: append each metric point at step `s`. -/
def log_metrics (w : World) (rid : String) (ms : List (String × Rat)) (s : Nat) :
    World :=
  updateRun w rid
    (fun r => { r with metrics := r.metrics ++ ms.map (fun m => ⟨m.1, m.2, s⟩) })

/-- `mlflow.log_metric(key, v, step=s)`: append one metric point. -/
def log_metric (w : World) (rid key : String) (v : Rat) (s : Nat) : World :=
  updateRun w rid (fun r => { r with metrics := r.metrics ++ [⟨key, v, s⟩] })

/-- `mlflow.log_artifact`: register a file with the run's artifact store. -/
def log_artifact (w : World) (rid path : String) : World :=
  updateRun w rid (fun r => { r with artifacts := r.artifacts ++ [path] })

/-- `mlflow.log_artifacts`: register a whole directory. -/
def log_artifacts (w : World) (rid dir : String) : World :=
  updateRun w rid (fun r => { r with artifacts := r.artifacts ++ [dir] })

/-- `mlflow.log_figure(fig, artifact_file=...)`: store a rendered figure. -/
def log_figure (w : World) (rid file : String) : World :=
  updateRun w rid (fun r => { r with artifacts := r.artifacts ++ [file] })

/-- `mlflow.end_run()`: signal run completion; the run becomes closed. -/
def end_run (w : World) (rid : String) : World :=
  updateRun w rid (fun r => { r with status := .closed })

/-- `Path.touch`: create the file if absent. -/
def touch (w : World) (path : String) : World :=
  if path ∈ w.files then w else { w with files := w.files ++ [path] }

/-- `savedir.mkdir(parents=True)`: create the directory recursively. -/
def mkdirParents (w : World) (d : String) : World :=
  { w with dirs := w.dirs ++ [d] }

/-- `savedir = wd / "outputs" / f"{cfg.expname}/{activerun.info.run_id}"`
(main.py line 102): the output directory, a function of the script directory,
the experiment name and the backend-assigned run id only. -/
def savedirOf (wd expname rid : String) : String :=
  wd ++ "/outputs/" ++ expname ++ "/" ++ rid

/-- The partial result of the epoch loop: the state reached, the logging
calls made so far, and the exception if one was raised (Python side effects
performed before an exception persist). -/
structure Outcome where
  w : World
  tr : List Event
  err : Option PyError
deriving Repr

/-- One iteration of the training loop (main.py lines 126-164) at epoch `e`:
compute `acc = epoch / n_epochs`, log the metric dict at step `e`, log the
random `luck` metric, then touch `savedir / f"{i:02d}.csv"` — whose f-string
evaluates the unbound name `i` — and register the file, the directory and the
figure with MLflow.  `luck` is the stream of `random.random()` draws. -/
def loopBody (rid savedir : String) (luck : Nat → Rat) (n_epochs e : Nat)
    (w : World) (tr : List Event) : Outcome :=
  match pyDiv e n_epochs with
  | .error er => ⟨w, tr, some er⟩
  | .ok acc =>
    let w1 := log_metrics w rid [("acc", acc)] e
    let t1 := tr ++ [.logMetrics [("acc", acc)] e]
    let w2 := log_metric w1 rid "luck" (luck e) e
    let t2 := t1 ++ [.logMetric "luck" (luck e) e]
    match lookupName iVar "i" with
    | .error er => ⟨w2, t2, some er⟩
    | .ok i =>
      let csv := savedir ++ "/" ++ fmt02 i ++ ".csv"
      let w3 := touch w2 csv
      let w4 := log_artifact w3 rid csv
      let t3 := t2 ++ [.logArtifact csv]
      let w5 := log_artifacts w4 rid savedir
      let t4 := t3 ++ [.logArtifacts savedir]
      let w6 := log_figure w5 rid (fmt02 i ++ ".png")
      ⟨w6, t4 ++ [.logFigure (fmt02 i ++ ".png")], none⟩

/-- `for epoch in range(n_epochs)`: run the loop bodies in order, stopping at
the first raised exception. -/
def runEpochs (rid savedir : String) (luck : Nat → Rat) (n_epochs : Nat) :
    List Nat → World → List Event → Outcome
  | [], w, tr => ⟨w, tr, none⟩
  | e :: rest, w, tr =>
    let o := loopBody rid savedir luck n_epochs e w tr
    match o.err with
    | some _ => o
    | none => runEpochs rid savedir luck n_epochs rest o.w o.tr

/-- The result of one invocation of `main`: the final state, the logging
trace, the propagated exception if any, and the computed output directory. -/
structure MainResult where
  world : World
  trace : List Event
  err : Option PyError
  savedir : String
deriving Repr

/-- One invocation of `main(cfg)` (main.py lines 59-169).  `wd` is the
resolved script directory, `rid` the run id the backend assigns to the new
run, `argv` the process command line, `luck` the stream of random draws.
Steps, in source order: experiment get-or-create (lines 79-83), run creation
(line 94), output-directory materialisation (lines 102-104), parameter
logging (lines 111-115), the training loop (lines 126-164), run closure
(line 169).  An exception propagates unmodified, leaving all effects already
performed in place. -/
def runMain (wd : String) (cfg : Cfg) (rid : String) (argv : List String)
    (luck : Nat → Rat) (w0 : World) : MainResult :=
  let w1 :=
    if (get_experiment_by_name w0 cfg.expname).isNone then
      create_experiment w0 cfg.expname (ARTIFACT_URI wd ++ "/" ++ cfg.expname)
    else w0
  let w2 := start_run w1 rid cfg.runname
  let savedir := savedirOf wd cfg.expname rid
  let w3 := if savedir ∈ w2.dirs then w2 else mkdirParents w2 savedir
  match log_params w3 rid (paramsOf cfg) with
  | .error er => ⟨w3, [], some er, savedir⟩
  | .ok w4 =>
    let t0 := [Event.logParams (paramsOf cfg)]
    match log_param w4 rid "argv" (String.intercalate " " argv) with
    | .error er => ⟨w4, t0, some er, savedir⟩
    | .ok w5 =>
      let t1 := t0 ++ [Event.logParam "argv" (String.intercalate " " argv)]
      let o := runEpochs rid savedir luck cfg.n_epochs
                 (List.range cfg.n_epochs) w5 t1
      match o.err with
      | some er => ⟨o.w, o.tr, some er, savedir⟩
      | none => ⟨end_run o.w rid, o.tr, none, savedir⟩

/-- One invocation as prepared by the external sweep driver: its resolved
configuration, the run id the backend will assign, the command line, and the
random stream for that process. -/
structure Invocation where
  cfg : Cfg
  rid : String
  argv : List String
  luck : Nat → Rat

/-- The backend/filesystem state after a sequence of invocations against the
same tracking backend (same `wd`), each one run to completion or to its
propagated exception before the next starts. -/
def invokeAll (wd : String) : List Invocation → World → World
  | [], w => w
  | inv :: rest, w =>
      invokeAll wd rest (runMain wd inv.cfg inv.rid inv.argv inv.luck w).world

/-- The number of experiments carrying a given name in the backend. -/
def countExps (w : World) (name : String) : Nat :=
  (w.experiments.filter (fun e => e.name == name)).length

/-! ## Basic preservation lemmas -/

lemma updateRun_experiments (w : World) (rid : String) (f : Run → Run) :
    (updateRun w rid f).experiments = w.experiments := rfl

lemma updateRun_dirs (w : World) (rid : String) (f : Run → Run) :
    (updateRun w rid f).dirs = w.dirs := rfl

lemma updateRun_files (w : World) (rid : String) (f : Run → Run) :
    (updateRun w rid f).files = w.files := rfl

/-- Whenever the denominator is non-zero, one loop-body iteration logs the
two metric points and then raises `NameError` for the unbound `i`. -/
lemma loopBody_eq (rid sd : String) (luck : Nat → Rat) (n e : Nat)
    (w : World) (tr : List Event) (hn : n ≠ 0) :
    loopBody rid sd luck n e w tr =
      ⟨log_metric (log_metrics w rid [("acc", (e : Rat) / (n : Rat))] e)
         rid "luck" (luck e) e,
       tr ++ [.logMetrics [("acc", (e : Rat) / (n : Rat))] e,
              .logMetric "luck" (luck e) e],
       some (.nameError "i")⟩ := by
  simp [loopBody, pyDiv, hn, lookupName, iVar]

/-- A loop-body iteration with `n_epochs = 0` would raise `ZeroDivisionError`
without any logging (such an iteration is never reached from `runMain`). -/
lemma loopBody_zero (rid sd : String) (luck : Nat → Rat) (e : Nat)
    (w : World) (tr : List Event) :
    loopBody rid sd luck 0 e w tr = ⟨w, tr, some .zeroDivisionError⟩ := by
  simp [loopBody, pyDiv]

/-- With a non-zero epoch count the loop stops inside its first iteration. -/
lemma runEpochs_cons (rid sd : String) (luck : Nat → Rat) (n e : Nat)
    (rest : List Nat) (w : World) (tr : List Event) (hn : n ≠ 0) :
    runEpochs rid sd luck n (e :: rest) w tr = loopBody rid sd luck n e w tr := by
  simp [runEpochs, loopBody_eq rid sd luck n e w tr hn]

lemma loopBody_experiments (rid sd : String) (luck : Nat → Rat) (n e : Nat)
    (w : World) (tr : List Event) :
    (loopBody rid sd luck n e w tr).w.experiments = w.experiments := by
  rcases Nat.eq_zero_or_pos n with hn | hn
  · subst hn; simp [loopBody_zero]
  · simp [loopBody_eq rid sd luck n e w tr (Nat.pos_iff_ne_zero.mp hn),
      log_metric, log_metrics, updateRun_experiments]

lemma loopBody_dirs (rid sd : String) (luck : Nat → Rat) (n e : Nat)
    (w : World) (tr : List Event) :
    (loopBody rid sd luck n e w tr).w.dirs = w.dirs := by
  rcases Nat.eq_zero_or_pos n with hn | hn
  · subst hn; simp [loopBody_zero]
  · simp [loopBody_eq rid sd luck n e w tr (Nat.pos_iff_ne_zero.mp hn),
      log_metric, log_metrics, updateRun_dirs]

lemma loopBody_files (rid sd : String) (luck : Nat → Rat) (n e : Nat)
    (w : World) (tr : List Event) :
    (loopBody rid sd luck n e w tr).w.files = w.files := by
  rcases Nat.eq_zero_or_pos n with hn | hn
  · subst hn; simp [loopBody_zero]
  · simp [loopBody_eq rid sd luck n e w tr (Nat.pos_iff_ne_zero.mp hn),
      log_metric, log_metrics, updateRun_files]

lemma runEpochs_experiments (rid sd : String) (luck : Nat → Rat) (n : Nat)
    (l : List Nat) (w : World) (tr : List Event) :
    (runEpochs rid sd luck n l w tr).w.experiments = w.experiments := by
  induction l generalizing w tr with
  | nil => rfl
  | cons e rest ih =>
    rw [runEpochs]
    rcases h : (loopBody rid sd luck n e w tr).err with _ | er
    · simp only [h]
      rw [ih]
      exact loopBody_experiments rid sd luck n e w tr
    · simp only [h]
      exact loopBody_experiments rid sd luck n e w tr

lemma runEpochs_dirs (rid sd : String) (luck : Nat → Rat) (n : Nat)
    (l : List Nat) (w : World) (tr : List Event) :
    (runEpochs rid sd luck n l w tr).w.dirs = w.dirs := by
  induction l generalizing w tr with
  | nil => rfl
  | cons e rest ih =>
    rw [runEpochs]
    rcases h : (loopBody rid sd luck n e w tr).err with _ | er
    · simp only [h]
      rw [ih]
      exact loopBody_dirs rid sd luck n e w tr
    · simp only [h]
      exact loopBody_dirs rid sd luck n e w tr

lemma runEpochs_files (rid sd : String) (luck : Nat → Rat) (n : Nat)
    (l : List Nat) (w : World) (tr : List Event) :
    (runEpochs rid sd luck n l w tr).w.files = w.files := by
  induction l generalizing w tr with
  | nil => rfl
  | cons e rest ih =>
    rw [runEpochs]
    rcases h : (loopBody rid sd luck n e w tr).err with _ | er
    · simp only [h]
      rw [ih]
      exact loopBody_files rid sd luck n e w tr
    · simp only [h]
      exact loopBody_files rid sd luck n e w tr

/-! ## Run status lemmas -/

lemma runs_pred_eq (x rid : String) (f : Run → Run)
    (hid : ∀ r, (f r).run_id = r.run_id) (a : Run) :
    ((if a.run_id == x then f a else a).run_id == rid) = (a.run_id == rid) := by
  split
  · rw [hid]
  · rfl

lemma find?_status_map (l : List Run) (x rid : String) (f : Run → Run)
    (hid : ∀ r, (f r).run_id = r.run_id) (hst : ∀ r, (f r).status = r.status) :
    ((l.map (fun r => if r.run_id == x then f r else r)).find?
        (fun r => r.run_id == rid)).map Run.status
      = (l.find? (fun r => r.run_id == rid)).map Run.status := by
  induction l with
  | nil => rfl
  | cons a l ih =>
    simp only [List.map_cons, List.find?]
    rw [runs_pred_eq x rid f hid a]
    cases h : (a.run_id == rid)
    · exact ih
    · simp only [Option.map_some]
      split
      · simp [hst]
      · rfl

lemma runStatus_updateRun (w : World) (x rid : String) (f : Run → Run)
    (hid : ∀ r, (f r).run_id = r.run_id) (hst : ∀ r, (f r).status = r.status) :
    runStatus (updateRun w x f) rid = runStatus w rid := by
  unfold runStatus updateRun
  exact find?_status_map w.runs x rid f hid hst

lemma runStatus_end_run (w : World) (rid : String) :
    runStatus (end_run w rid) rid = (runStatus w rid).map (fun _ => .closed) := by
  unfold runStatus end_run updateRun
  induction w.runs with
  | nil => rfl
  | cons a l ih =>
    simp only [List.map_cons, List.find?]
    cases h : (a.run_id == rid)
    · rw [if_neg (by simp [h]), h]
      exact ih
    · rw [if_pos (by simp [h])]
      simp [h]

lemma find?_append_singleton {α : Type} (l : List α) (p : α → Bool) (b : α)
    (h : ∀ r ∈ l, p r = false) (hb : p b = true) :
    (l ++ [b]).find? p = some b := by
  induction l with
  | nil => simp [List.find?, hb]
  | cons a t ih =>
    simp only [List.cons_append, List.find?, h a (by simp)]
    exact ih (fun r hr => h r (by simp [hr]))

lemma runStatus_start_run_fresh (w : World) (rid rn : String)
    (hfresh : ∀ r ∈ w.runs, r.run_id ≠ rid) :
    runStatus (start_run w rid rn) rid = some .active := by
  unfold runStatus start_run
  rw [show ({ w with runs := w.runs ++ [⟨rid, rn, .active, [], [], []⟩] } : World).runs
      = w.runs ++ [⟨rid, rn, .active, [], [], []⟩] from rfl]
  rw [find?_append_singleton w.runs _ _ (fun r hr => by simp [hfresh r hr]) (by simp)]
  rfl

/-! ## Characterisation of one invocation -/

lemma start_run_experiments (w : World) (rid rn : String) :
    (start_run w rid rn).experiments = w.experiments := rfl

lemma mkdirParents_experiments (w : World) (d : String) :
    (mkdirParents w d).experiments = w.experiments := rfl

lemma create_experiment_experiments (w : World) (n a : String) :
    (create_experiment w n a).experiments = w.experiments ++ [⟨n, a⟩] := rfl

lemma end_run_experiments (w : World) (rid : String) :
    (end_run w rid).experiments = w.experiments := rfl

lemma start_run_dirs (w : World) (rid rn : String) :
    (start_run w rid rn).dirs = w.dirs := rfl

lemma create_experiment_dirs (w : World) (n a : String) :
    (create_experiment w n a).dirs = w.dirs := rfl

lemma mkdirParents_dirs (w : World) (d : String) :
    (mkdirParents w d).dirs = w.dirs ++ [d] := rfl

lemma end_run_dirs (w : World) (rid : String) :
    (end_run w rid).dirs = w.dirs := rfl

lemma log_params_ok (w : World) (rid : String) (ps : List (String × String))
    (w' : World) (h : log_params w rid ps = .ok w') :
    w' = updateRun w rid (fun r => { r with params := r.params ++ ps }) := by
  unfold log_params at h
  split at h
  · cases h
  · exact (Except.ok.inj h).symm

lemma log_param_ok (w : World) (rid key val : String)
    (w' : World) (h : log_param w rid key val = .ok w') :
    w' = updateRun w rid (fun r => { r with params := r.params ++ [(key, val)] }) := by
  unfold log_param at h
  split at h
  · cases h
  · exact (Except.ok.inj h).symm

lemma log_params_error (w : World) (rid : String) (ps : List (String × String))
    (er : PyError) (h : log_params w rid ps = .error er) :
    er = .mlflowException "param already logged" := by
  unfold log_params at h
  split at h
  · exact (Except.error.inj h).symm
  · cases h

lemma log_param_error (w : World) (rid key val : String)
    (er : PyError) (h : log_param w rid key val = .error er) :
    er = .mlflowException ("param already logged: " ++ key) := by
  unfold log_param at h
  split at h
  · exact (Except.error.inj h).symm
  · cases h

/-- The only effect an invocation has on the set of experiments is the
get-or-create step: the experiment record is appended exactly when the query
by name returned nothing. -/
lemma runMain_experiments (wd : String) (cfg : Cfg) (rid : String)
    (argv : List String) (luck : Nat → Rat) (w0 : World) :
    (runMain wd cfg rid argv luck w0).world.experiments =
      if (get_experiment_by_name w0 cfg.expname).isNone then
        w0.experiments ++ [⟨cfg.expname, ARTIFACT_URI wd ++ "/" ++ cfg.expname⟩]
      else w0.experiments := by
  simp only [runMain]
  split
  case _ er heq =>
    simp [apply_ite World.experiments, mkdirParents_experiments, start_run_experiments,
      create_experiment_experiments]
  case _ w4 heq =>
    rw [log_params_ok _ _ _ _ heq]
    split
    case _ er2 heq2 =>
      simp [apply_ite World.experiments, mkdirParents_experiments, start_run_experiments,
        create_experiment_experiments, updateRun_experiments]
    case _ w5 heq2 =>
      rw [log_param_ok _ _ _ _ _ heq2]
      split <;>
        simp [runEpochs_experiments, end_run_experiments, updateRun_experiments,
          apply_ite World.experiments, mkdirParents_experiments, start_run_experiments,
          create_experiment_experiments]

/-- The only effect an invocation has on the set of directories is the
output-directory materialisation: the directory is appended exactly when it
did not exist before. -/
lemma runMain_dirs (wd : String) (cfg : Cfg) (rid : String)
    (argv : List String) (luck : Nat → Rat) (w0 : World) :
    (runMain wd cfg rid argv luck w0).world.dirs =
      if savedirOf wd cfg.expname rid ∈ w0.dirs then w0.dirs
      else w0.dirs ++ [savedirOf wd cfg.expname rid] := by
  simp only [runMain]
  split
  case _ er heq =>
    simp [apply_ite World.dirs, mkdirParents_dirs, start_run_dirs,
      create_experiment_dirs]
  case _ w4 heq =>
    rw [log_params_ok _ _ _ _ heq]
    split
    case _ er2 heq2 =>
      simp [apply_ite World.dirs, mkdirParents_dirs, start_run_dirs,
        create_experiment_dirs, updateRun_dirs]
    case _ w5 heq2 =>
      rw [log_param_ok _ _ _ _ _ heq2]
      split <;>
        simp [runEpochs_dirs, end_run_dirs, updateRun_dirs,
          apply_ite World.dirs, mkdirParents_dirs, start_run_dirs,
          create_experiment_dirs]

/-- The savedir an invocation reports is the pure path function applied to
the script directory, the experiment name and the run id. -/
lemma runMain_savedir (wd : String) (cfg : Cfg) (rid : String)
    (argv : List String) (luck : Nat → Rat) (w0 : World) :
    (runMain wd cfg rid argv luck w0).savedir = savedirOf wd cfg.expname rid := by
  simp only [runMain]
  split
  · rfl
  · split
    · rfl
    · split <;> rfl

/-- With a non-zero epoch count, an invocation from the pristine state
performs the experiment creation, run creation, directory creation and
parameter logging, logs the two step-0 metric points, then stops with
`NameError` on the unbound `i`, leaving the run active. -/
lemma runMain_empty_crash (wd : String) (cfg : Cfg) (rid : String)
    (argv : List String) (luck : Nat → Rat) (hn : cfg.n_epochs ≠ 0) :
    runMain wd cfg rid argv luck World.empty =
      ⟨⟨[⟨cfg.expname, ARTIFACT_URI wd ++ "/" ++ cfg.expname⟩],
        [⟨rid, cfg.runname, .active,
          paramsOf cfg ++ [("argv", String.intercalate " " argv)],
          [⟨"acc", 0, 0⟩, ⟨"luck", luck 0, 0⟩], []⟩],
        [savedirOf wd cfg.expname rid], []⟩,
       [.logParams (paramsOf cfg), .logParam "argv" (String.intercalate " " argv),
        .logMetrics [("acc", 0)] 0, .logMetric "luck" (luck 0) 0],
       some (.nameError "i"), savedirOf wd cfg.expname rid⟩ := by
  obtain ⟨m, hm⟩ := Nat.exists_eq_succ_of_ne_zero hn
  simp [runMain, World.empty, get_experiment_by_name, create_experiment, start_run,
    mkdirParents, List.find?, hm, List.range_succ_eq_map, runEpochs, loopBody, pyDiv,
    lookupName, iVar, log_params, log_param, log_metrics, log_metric, runParams,
    updateRun, paramsOf, savedirOf]

/-- With a zero epoch count, an invocation from the pristine state performs
no loop iteration at all and closes the run. -/
lemma runMain_empty_zero (wd : String) (cfg : Cfg) (rid : String)
    (argv : List String) (luck : Nat → Rat) (hz : cfg.n_epochs = 0) :
    runMain wd cfg rid argv luck World.empty =
      ⟨⟨[⟨cfg.expname, ARTIFACT_URI wd ++ "/" ++ cfg.expname⟩],
        [⟨rid, cfg.runname, .closed,
          paramsOf cfg ++ [("argv", String.intercalate " " argv)], [], []⟩],
        [savedirOf wd cfg.expname rid], []⟩,
       [.logParams (paramsOf cfg), .logParam "argv" (String.intercalate " " argv)],
       none, savedirOf wd cfg.expname rid⟩ := by
  simp [runMain, World.empty, get_experiment_by_name, create_experiment, start_run,
    mkdirParents, List.find?, hz, runEpochs, log_params, log_param, runParams,
    updateRun, end_run, paramsOf, savedirOf]

/-! ## Idempotence of experiment creation across invocations -/

lemma get_none_iff_countExps_zero (w : World) (name : String) :
    get_experiment_by_name w name = none ↔ countExps w name = 0 := by
  unfold get_experiment_by_name countExps
  rw [List.find?_eq_none, List.length_eq_zero, List.filter_eq_nil_iff]

/-- One invocation turns any positive experiment count into itself and a
zero count into one. -/
lemma countExps_runMain (wd : String) (cfg : Cfg) (rid : String)
    (argv : List String) (luck : Nat → Rat) (w0 : World) :
    countExps (runMain wd cfg rid argv luck w0).world cfg.expname =
      max (countExps w0 cfg.expname) 1 := by
  by_cases h : get_experiment_by_name w0 cfg.expname = none
  · have h0 : countExps w0 cfg.expname = 0 :=
      (get_none_iff_countExps_zero w0 cfg.expname).mp h
    unfold countExps at h0 ⊢
    rw [runMain_experiments, if_pos (by simp [h])]
    simp only [List.filter_append, List.length_append, h0]
    simp
  · have h1 : countExps w0 cfg.expname ≠ 0 :=
      fun hc => h ((get_none_iff_countExps_zero w0 cfg.expname).mpr hc)
    unfold countExps at h1 ⊢
    rw [runMain_experiments, if_neg (by simp [h])]
    omega

lemma mem_experiments_runMain (wd : String) (cfg : Cfg) (rid : String)
    (argv : List String) (luck : Nat → Rat) (w0 : World) (e : Experiment)
    (hm : e ∈ w0.experiments) :
    e ∈ (runMain wd cfg rid argv luck w0).world.experiments := by
  rw [runMain_experiments]
  split <;> simp [hm]

lemma invokeAll_countExps_one (wd name : String) (invs : List Invocation)
    (w : World) (hname : ∀ inv ∈ invs, inv.cfg.expname = name)
    (h1 : countExps w name = 1) :
    countExps (invokeAll wd invs w) name = 1 := by
  induction invs generalizing w with
  | nil => exact h1
  | cons a t ih =>
    rw [invokeAll]
    refine ih _ (fun inv hi => hname inv (by simp [hi])) ?_
    rw [← hname a (by simp)] at h1 ⊢
    rw [countExps_runMain, h1]
    rfl

lemma invokeAll_mem_experiments (wd : String) (invs : List Invocation)
    (w : World) (e : Experiment) (hm : e ∈ w.experiments) :
    e ∈ (invokeAll wd invs w).experiments := by
  induction invs generalizing w with
  | nil => exact hm
  | cons a t ih =>
    rw [invokeAll]
    exact ih _ (mem_experiments_runMain _ _ _ _ _ _ _ hm)

/-- The epoch loop driven over `range n_epochs` either finishes or stops at
the `NameError`; it never raises `ZeroDivisionError`. -/
lemma runEpochs_range_err (rid sd : String) (luck : Nat → Rat) (n : Nat)
    (w : World) (tr : List Event) :
    (runEpochs rid sd luck n (List.range n) w tr).err = none ∨
    (runEpochs rid sd luck n (List.range n) w tr).err = some (.nameError "i") := by
  cases n with
  | zero => left; rfl
  | succ m =>
    rw [List.range_succ_eq_map, runEpochs_cons _ _ _ _ _ _ _ _ (Nat.succ_ne_zero m),
      loopBody_eq _ _ _ _ _ _ _ (Nat.succ_ne_zero m)]
    right; rfl

/-! ## The claims -/

/-- Claim C1: the spec's end-to-end scenario (expname=demo, runname=trial1,
n_epochs=3, lr=0.001, batch_size=8) promises three csv artifacts and a
closed run.  The code does not deliver it: evaluating that configuration,
the invocation stops with `NameError` for the unbound `i` inside the first
epoch, no csv file is ever created, and the run stays active.  This
contradicts the source's own intent (the comment "Store artifacts by step"
and the loop variable `epoch`), so it is a bug in the code. -/
theorem c1_demo_scenario_code_behavior :
    (runMain "/base" ⟨"demo", "trial1", 3, "0.001", 8⟩ "run0001"
      ["main.py", "expname=demo", "runname=trial1", "n_epochs=3", "lr=0.001",
       "batch_size=8"] (fun _ => 0) World.empty).err = some (.nameError "i")
  ∧ (runMain "/base" ⟨"demo", "trial1", 3, "0.001", 8⟩ "run0001"
      ["main.py", "expname=demo", "runname=trial1", "n_epochs=3", "lr=0.001",
       "batch_size=8"] (fun _ => 0) World.empty).world.files = []
  ∧ runStatus (runMain "/base" ⟨"demo", "trial1", 3, "0.001", 8⟩ "run0001"
      ["main.py", "expname=demo", "runname=trial1", "n_epochs=3", "lr=0.001",
       "batch_size=8"] (fun _ => 0) World.empty).world "run0001"
      = some .active := by
  refine ⟨?_, ?_, ?_⟩ <;> decide

/-- Claim C2: for every configuration with at least one epoch, the
invocation raises `NameError` (the unbound `i` in the artifact file name)
inside the first epoch, no per-epoch csv file is created, and the run is
left active because run closure is never reached. -/
theorem c2_unbound_name_aborts_first_epoch (wd : String) (cfg : Cfg)
    (rid : String) (argv : List String) (luck : Nat → Rat)
    (h : 1 ≤ cfg.n_epochs) :
    (runMain wd cfg rid argv luck World.empty).err = some (.nameError "i")
  ∧ (runMain wd cfg rid argv luck World.empty).world.files = []
  ∧ runStatus (runMain wd cfg rid argv luck World.empty).world rid
      = some .active := by
  rw [runMain_empty_crash wd cfg rid argv luck (by omega)]
  refine ⟨rfl, rfl, ?_⟩
  simp [runStatus, List.find?]

/-- Witness for C2 at a concrete configuration with one epoch. -/
theorem c2_unbound_name_aborts_first_epoch_witness :
    1 ≤ (Cfg.mk "exp1" "run1" 1 "0.01" 4).n_epochs
  ∧ ((runMain "/b" (Cfg.mk "exp1" "run1" 1 "0.01" 4) "id1" ["main.py"]
        (fun _ => 0) World.empty).err = some (.nameError "i")
    ∧ (runMain "/b" (Cfg.mk "exp1" "run1" 1 "0.01" 4) "id1" ["main.py"]
        (fun _ => 0) World.empty).world.files = []
    ∧ runStatus (runMain "/b" (Cfg.mk "exp1" "run1" 1 "0.01" 4) "id1"
        ["main.py"] (fun _ => 0) World.empty).world "id1" = some .active) :=
  ⟨by decide,
   c2_unbound_name_aborts_first_epoch "/b" (Cfg.mk "exp1" "run1" 1 "0.01" 4)
     "id1" ["main.py"] (fun _ => 0) (by decide)⟩

/-- Claim C3: across any non-empty sequence of invocations sharing one
experiment name, exactly one experiment with that name exists afterwards
(idempotent get-or-create), and no pre-existing experiment is ever
deleted. -/
theorem c3_experiment_get_or_create_idempotent (wd name : String)
    (invs : List Invocation) (w0 : World) (hne : invs ≠ [])
    (hname : ∀ inv ∈ invs, inv.cfg.expname = name)
    (h0 : countExps w0 name = 0) :
    countExps (invokeAll wd invs w0) name = 1
  ∧ ∀ e ∈ w0.experiments, e ∈ (invokeAll wd invs w0).experiments := by
  constructor
  · match invs, hne with
    | a :: t, _ =>
      rw [invokeAll]
      refine invokeAll_countExps_one wd name t _
        (fun inv hi => hname inv (by simp [hi])) ?_
      rw [← hname a (by simp)] at h0 ⊢
      rw [countExps_runMain, h0]
      rfl
  · intro e he
    exact invokeAll_mem_experiments wd invs w0 e he

/-- Witness for C3: two invocations under the name "demo" leave exactly one
"demo" experiment. -/
theorem c3_experiment_get_or_create_idempotent_witness :
    ([⟨⟨"demo", "a", 1, "0.1", 2⟩, "idA", ["main.py"], fun _ => 0⟩,
      ⟨⟨"demo", "b", 0, "0.2", 2⟩, "idB", ["main.py"], fun _ => 0⟩]
        : List Invocation) ≠ []
  ∧ (∀ inv ∈ ([⟨⟨"demo", "a", 1, "0.1", 2⟩, "idA", ["main.py"], fun _ => 0⟩,
        ⟨⟨"demo", "b", 0, "0.2", 2⟩, "idB", ["main.py"], fun _ => 0⟩]
          : List Invocation), inv.cfg.expname = "demo")
  ∧ countExps World.empty "demo" = 0
  ∧ (countExps (invokeAll "/b"
        [⟨⟨"demo", "a", 1, "0.1", 2⟩, "idA", ["main.py"], fun _ => 0⟩,
         ⟨⟨"demo", "b", 0, "0.2", 2⟩, "idB", ["main.py"], fun _ => 0⟩]
        World.empty) "demo" = 1
    ∧ ∀ e ∈ World.empty.experiments,
        e ∈ (invokeAll "/b"
          [⟨⟨"demo", "a", 1, "0.1", 2⟩, "idA", ["main.py"], fun _ => 0⟩,
           ⟨⟨"demo", "b", 0, "0.2", 2⟩, "idB", ["main.py"], fun _ => 0⟩]
          World.empty).experiments) :=
  ⟨by simp, by simp, by decide,
   c3_experiment_get_or_create_idempotent "/b" "demo"
     [⟨⟨"demo", "a", 1, "0.1", 2⟩, "idA", ["main.py"], fun _ => 0⟩,
      ⟨⟨"demo", "b", 0, "0.2", 2⟩, "idB", ["main.py"], fun _ => 0⟩]
     World.empty (by simp) (by simp) (by decide)⟩

/-- Claim C4: the output directory path is the pure function
`wd ++ "/outputs/" ++ expname ++ "/" ++ run-id` of the experiment name and
the backend-assigned run id — independent of the run name — and the
directory is appended to the filesystem exactly when it did not already
exist. -/
theorem c4_savedir_pure_function_and_mkdir_iff (wd : String) (cfg : Cfg)
    (rid : String) (argv : List String) (luck : Nat → Rat) (w0 : World) :
    (runMain wd cfg rid argv luck w0).savedir = savedirOf wd cfg.expname rid
  ∧ savedirOf wd cfg.expname rid = wd ++ "/outputs/" ++ cfg.expname ++ "/" ++ rid
  ∧ (∀ rn : String, (runMain wd { cfg with runname := rn } rid argv luck w0).savedir
      = (runMain wd cfg rid argv luck w0).savedir)
  ∧ (runMain wd cfg rid argv luck w0).world.dirs =
      (if savedirOf wd cfg.expname rid ∈ w0.dirs then w0.dirs
       else w0.dirs ++ [savedirOf wd cfg.expname rid]) := by
  refine ⟨runMain_savedir wd cfg rid argv luck w0, rfl, ?_, runMain_dirs wd cfg rid argv luck w0⟩
  intro rn
  rw [runMain_savedir, runMain_savedir]

/-- Claim C5: with `n_epochs = 0` the loop body never runs (the trace ends
with the two parameter-logging calls, and no metric is logged), no exception
is raised, and the run still reaches the closed state. -/
theorem c5_zero_epochs_still_closes_run (wd : String) (cfg : Cfg)
    (rid : String) (argv : List String) (luck : Nat → Rat)
    (h : cfg.n_epochs = 0) :
    (runMain wd cfg rid argv luck World.empty).err = none
  ∧ runStatus (runMain wd cfg rid argv luck World.empty).world rid
      = some .closed
  ∧ (runMain wd cfg rid argv luck World.empty).trace =
      [.logParams (paramsOf cfg),
       .logParam "argv" (String.intercalate " " argv)]
  ∧ runMetrics (runMain wd cfg rid argv luck World.empty).world rid = [] := by
  rw [runMain_empty_zero wd cfg rid argv luck h]
  refine ⟨rfl, ?_, rfl, ?_⟩ <;> simp [runStatus, runMetrics, List.find?]

/-- Witness for C5 at a concrete zero-epoch configuration. -/
theorem c5_zero_epochs_still_closes_run_witness :
    (Cfg.mk "exp1" "run1" 0 "0.01" 4).n_epochs = 0
  ∧ ((runMain "/b" (Cfg.mk "exp1" "run1" 0 "0.01" 4) "id1" ["main.py"]
        (fun _ => 0) World.empty).err = none
    ∧ runStatus (runMain "/b" (Cfg.mk "exp1" "run1" 0 "0.01" 4) "id1"
        ["main.py"] (fun _ => 0) World.empty).world "id1" = some .closed
    ∧ (runMain "/b" (Cfg.mk "exp1" "run1" 0 "0.01" 4) "id1" ["main.py"]
        (fun _ => 0) World.empty).trace =
        [.logParams (paramsOf (Cfg.mk "exp1" "run1" 0 "0.01" 4)),
         .logParam "argv" (String.intercalate " " ["main.py"])]
    ∧ runMetrics (runMain "/b" (Cfg.mk "exp1" "run1" 0 "0.01" 4) "id1"
        ["main.py"] (fun _ => 0) World.empty).world "id1" = []) :=
  ⟨by decide,
   c5_zero_epochs_still_closes_run "/b" (Cfg.mk "exp1" "run1" 0 "0.01" 4)
     "id1" ["main.py"] (fun _ => 0) (by decide)⟩

/-- Claim C6: every invocation logs the whole configuration mapping in one
call and then the synthetic "argv" parameter, and both stand strictly before
every event emitted by the training loop. -/
theorem c6_params_logged_before_training (wd : String) (cfg : Cfg)
    (rid : String) (argv : List String) (luck : Nat → Rat) :
    ∃ rest, (runMain wd cfg rid argv luck World.empty).trace =
        Event.logParams (paramsOf cfg) ::
        Event.logParam "argv" (String.intercalate " " argv) :: rest
      ∧ ∀ ev ∈ rest, ev.isTraining = true := by
  rcases Nat.eq_zero_or_pos cfg.n_epochs with h | h
  · rw [runMain_empty_zero wd cfg rid argv luck h]
    exact ⟨[], rfl, by simp⟩
  · rw [runMain_empty_crash wd cfg rid argv luck (by omega)]
    refine ⟨[.logMetrics [("acc", 0)] 0, .logMetric "luck" (luck 0) 0], rfl, ?_⟩
    intro ev hev
    simp only [List.mem_cons, List.not_mem_nil, or_false] at hev
    rcases hev with h1 | h1 <;> subst h1 <;> rfl

/-- Claim C7: a created experiment stores its artifacts at the string
concatenation of the base artifact URI and the experiment name, and the
tracking URI is the fixed file-scheme path `file://<wd>/mlruns`. -/
theorem c7_artifact_location_concatenation (wd : String) (cfg : Cfg)
    (rid : String) (argv : List String) (luck : Nat → Rat) (w0 : World)
    (h : get_experiment_by_name w0 cfg.expname = none) :
    (runMain wd cfg rid argv luck w0).world.experiments =
      w0.experiments ++ [⟨cfg.expname, ARTIFACT_URI wd ++ "/" ++ cfg.expname⟩]
  ∧ ARTIFACT_URI wd = TRACKING_URI wd
  ∧ TRACKING_URI wd = "file://" ++ wd ++ "/mlruns" := by
  refine ⟨?_, rfl, rfl⟩
  rw [runMain_experiments, if_pos (by simp [h])]

/-- Witness for C7 from the pristine backend. -/
theorem c7_artifact_location_concatenation_witness :
    get_experiment_by_name World.empty "demo" = none
  ∧ ((runMain "/b" (Cfg.mk "demo" "r" 0 "0.1" 2) "id1" ["main.py"]
        (fun _ => 0) World.empty).world.experiments =
      World.empty.experiments ++
        [⟨(Cfg.mk "demo" "r" 0 "0.1" 2).expname,
          ARTIFACT_URI "/b" ++ "/" ++ (Cfg.mk "demo" "r" 0 "0.1" 2).expname⟩]
    ∧ ARTIFACT_URI "/b" = TRACKING_URI "/b"
    ∧ TRACKING_URI "/b" = "file://" ++ "/b" ++ "/mlruns") :=
  ⟨by decide,
   c7_artifact_location_concatenation "/b" (Cfg.mk "demo" "r" 0 "0.1" 2)
     "id1" ["main.py"] (fun _ => 0) World.empty (by decide)⟩

/-- Claim C8: a failure raised mid-epoch (the `NameError` of the artifact
write) propagates out of the orchestrator uncaught; the run stays in the
active state — no failed status exists to be set — and the output directory
created for the run is still present afterwards. -/
theorem c8_midrun_failure_leaves_active_run_and_dir (wd : String) (cfg : Cfg)
    (rid : String) (argv : List String) (luck : Nat → Rat)
    (h : 1 ≤ cfg.n_epochs) :
    (runMain wd cfg rid argv luck World.empty).err = some (.nameError "i")
  ∧ runStatus (runMain wd cfg rid argv luck World.empty).world rid
      = some .active
  ∧ (runMain wd cfg rid argv luck World.empty).savedir
      ∈ (runMain wd cfg rid argv luck World.empty).world.dirs := by
  rw [runMain_empty_crash wd cfg rid argv luck (by omega)]
  refine ⟨rfl, ?_, ?_⟩ <;> simp [runStatus, List.find?]

/-- Witness for C8 at a concrete two-epoch configuration. -/
theorem c8_midrun_failure_leaves_active_run_and_dir_witness :
    1 ≤ (Cfg.mk "exp1" "run1" 2 "0.01" 4).n_epochs
  ∧ ((runMain "/b" (Cfg.mk "exp1" "run1" 2 "0.01" 4) "id1" ["main.py"]
        (fun _ => 0) World.empty).err = some (.nameError "i")
    ∧ runStatus (runMain "/b" (Cfg.mk "exp1" "run1" 2 "0.01" 4) "id1"
        ["main.py"] (fun _ => 0) World.empty).world "id1" = some .active
    ∧ (runMain "/b" (Cfg.mk "exp1" "run1" 2 "0.01" 4) "id1" ["main.py"]
        (fun _ => 0) World.empty).savedir
        ∈ (runMain "/b" (Cfg.mk "exp1" "run1" 2 "0.01" 4) "id1" ["main.py"]
            (fun _ => 0) World.empty).world.dirs) :=
  ⟨by decide,
   c8_midrun_failure_leaves_active_run_and_dir "/b"
     (Cfg.mk "exp1" "run1" 2 "0.01" 4) "id1" ["main.py"] (fun _ => 0)
     (by decide)⟩

/-- Claim C9: every executed epoch also logs the "luck" metric, whose value
comes from the random stream, so two invocations that differ only in their
random draws leave different metric series in the backend: the
backend-visible output is not a function of the configuration alone. -/
theorem c9_luck_metric_nondeterministic (wd : String) (cfg : Cfg)
    (rid : String) (argv : List String) (luck : Nat → Rat)
    (h : 1 ≤ cfg.n_epochs) :
    (⟨"luck", luck 0, 0⟩ : Metric)
      ∈ runMetrics (runMain wd cfg rid argv luck World.empty).world rid
  ∧ ∀ luck' : Nat → Rat, luck 0 ≠ luck' 0 →
      runMetrics (runMain wd cfg rid argv luck World.empty).world rid ≠
        runMetrics (runMain wd cfg rid argv luck' World.empty).world rid := by
  have hn : cfg.n_epochs ≠ 0 := by omega
  constructor
  · rw [runMain_empty_crash wd cfg rid argv luck hn]
    simp [runMetrics, List.find?]
  · intro luck' hne
    rw [runMain_empty_crash wd cfg rid argv luck hn,
      runMain_empty_crash wd cfg rid argv luck' hn]
    simp [runMetrics, List.find?]
    exact hne

/-- Witness for C9 at a concrete one-epoch configuration. -/
theorem c9_luck_metric_nondeterministic_witness :
    1 ≤ (Cfg.mk "exp1" "run1" 1 "0.01" 4).n_epochs
  ∧ ((⟨"luck", (fun _ => (0 : Rat)) 0, 0⟩ : Metric)
      ∈ runMetrics (runMain "/b" (Cfg.mk "exp1" "run1" 1 "0.01" 4) "id1"
          ["main.py"] (fun _ => 0) World.empty).world "id1"
    ∧ ∀ luck' : Nat → Rat, (fun _ => (0 : Rat)) 0 ≠ luck' 0 →
        runMetrics (runMain "/b" (Cfg.mk "exp1" "run1" 1 "0.01" 4) "id1"
            ["main.py"] (fun _ => 0) World.empty).world "id1" ≠
          runMetrics (runMain "/b" (Cfg.mk "exp1" "run1" 1 "0.01" 4) "id1"
            ["main.py"] luck' World.empty).world "id1") :=
  ⟨by decide,
   c9_luck_metric_nondeterministic "/b" (Cfg.mk "exp1" "run1" 1 "0.01" 4)
     "id1" ["main.py"] (fun _ => 0) (by decide)⟩

/-- Claim C10: the division `epoch / n_epochs` never divides by zero: the
orchestrator never raises `ZeroDivisionError`, and every epoch index the
loop can evaluate lies strictly below `n_epochs`, where the division
succeeds. -/
theorem c10_no_division_by_zero (wd : String) (cfg : Cfg) (rid : String)
    (argv : List String) (luck : Nat → Rat) (w0 : World) :
    (runMain wd cfg rid argv luck w0).err ≠ some .zeroDivisionError
  ∧ ∀ e ∈ List.range cfg.n_epochs,
      e < cfg.n_epochs ∧ ∃ q, pyDiv e cfg.n_epochs = .ok q := by
  constructor
  · simp only [runMain]
    split
    case _ er heq =>
      rw [log_params_error _ _ _ _ heq]
      simp
    case _ w4 heq =>
      split
      case _ er2 heq2 =>
        rw [log_param_error _ _ _ _ _ heq2]
        simp
      case _ w5 heq2 =>
        split
        case _ er3 heq3 =>
          rcases runEpochs_range_err rid (savedirOf wd cfg.expname rid) luck
              cfg.n_epochs w5
              ([Event.logParams (paramsOf cfg)] ++
               [Event.logParam "argv" (String.intercalate " " argv)]) with hc | hc <;>
            rw [heq3] at hc
          · cases hc
          · simp [Option.some.inj hc]
        case _ heq3 => simp
  · intro e he
    have hlt : e < cfg.n_epochs := List.mem_range.mp he
    refine ⟨hlt, ((e : Rat) / (cfg.n_epochs : Rat)), ?_⟩
    unfold pyDiv
    rw [if_neg (by omega)]

end MlflowHydra
